import Mathlib

/-!
Verification of the AIVA web chat backend against its natural-language
specification.

The development shallowly embeds the parts of the code the claims are about:

* the database state (`Users`, `Workspaces`, `Chats`, `Messages`,
  `MessageActions` tables, from the schema in the Azure-services module) as
  lists of row structures;
* the `POST /chat/message` route handler (`sendMessage` below), translated
  statement by statement from the Express handler, with the external effects
  (fresh UUIDs, `GETUTCDATE()`, the file-content extraction service, the
  OpenAI chat-completion call, the `NODE_ENV`/`BYPASS_AUTH` flags) passed as
  explicit parameters;
* the message-actions route handler (`messageAction`);
* the frontend guard of `handleMessageAction` and the frontend error-text
  chooser of `sendMessage` in `Dashboard.tsx`;
* the Azure service adapter initializers (SQL, Blob Storage, App
  Configuration, OpenAI), abstracted to the decision they make from the
  environment: fail, real client, or in-memory mock client.

Columns that no modelled route reads or writes (timestamps the claims do not
mention, `metadata`, `tokens`, `isArchived`, ...) are omitted from the row
structures; `GETUTCDATE()` is modelled as an abstract `now : Nat`.
-/

/-- A row of the `Users` table (columns used by the modelled routes). -/
structure UserRow where
  id : String
  firstName : String
  lastName : String
  email : String
  role : String
deriving Repr, DecidableEq

/-- A row of the `Workspaces` table. -/
structure WorkspaceRow where
  id : String
  name : String
  description : String
  color : String
  ownerId : String
deriving Repr, DecidableEq

/-- A row of the `Chats` table. -/
structure ChatRow where
  id : String
  title : String
  description : String
  userId : String
  workspaceId : String
  messageCount : Nat
  lastMessageAt : Option Nat
  createdAt : Nat
  updatedAt : Nat
deriving Repr, DecidableEq

/-- A row of the `Messages` table. -/
structure MessageRow where
  id : String
  chatId : String
  userId : String
  content : String
  role : String
  createdAt : Nat
deriving Repr, DecidableEq

/-- A row of the `MessageActions` table. -/
structure ActionRow where
  id : String
  messageId : String
  userId : String
  actionType : String
deriving Repr, DecidableEq

/-- The database state: the five tables the chat routes touch. -/
structure DB where
  users : List UserRow
  workspaces : List WorkspaceRow
  chats : List ChatRow
  messages : List MessageRow
  actions : List ActionRow
deriving Repr, DecidableEq

/-- `SELECT id FROM Users WHERE id = @userId`. -/
def findUser (db : DB) (uid : String) : Option UserRow :=
  db.users.find? (fun u => u.id == uid)

/-- `SELECT id FROM Users WHERE email = @email`. -/
def findUserByEmail (db : DB) (email : String) : Option UserRow :=
  db.users.find? (fun u => u.email == email)

/-- `SELECT TOP 1 id FROM Workspaces WHERE ownerId = @userId`. -/
def firstWorkspaceOf (db : DB) (uid : String) : Option WorkspaceRow :=
  db.workspaces.find? (fun w => w.ownerId == uid)

/-- `SELECT id FROM Workspaces WHERE id = @workspaceId AND ownerId = @userId`. -/
def findWorkspaceOwned (db : DB) (wid uid : String) : Option WorkspaceRow :=
  db.workspaces.find? (fun w => w.id == wid && w.ownerId == uid)

/-- `SELECT * FROM Workspaces WHERE id = @workspaceId` (first row). -/
def findWorkspaceById (db : DB) (wid : String) : Option WorkspaceRow :=
  db.workspaces.find? (fun w => w.id == wid)

/-- `SELECT * FROM Chats WHERE id = @chatId` (first row). -/
def findChat (db : DB) (cid : String) : Option ChatRow :=
  db.chats.find? (fun c => c.id == cid)

/-- Whether a `Chats` row with this id exists (the foreign-key target of
`Messages.chatId`). -/
def chatExists (db : DB) (cid : String) : Bool :=
  db.chats.any (fun c => c.id == cid)

/-- `INSERT INTO Users ...`. -/
def insertUser (db : DB) (u : UserRow) : DB :=
  { db with users := db.users ++ [u] }

/-- `UPDATE Users SET id = @id WHERE email = @email`: re-point the rows with
this email at the new id. -/
def repointUser (db : DB) (email newId : String) : DB :=
  { db with users := (db.users.map
      (fun u => if u.email == email then { u with id := newId } else u)) }

/-- `INSERT INTO Workspaces ...`. -/
def insertWorkspace (db : DB) (w : WorkspaceRow) : DB :=
  { db with workspaces := db.workspaces ++ [w] }

/-- `INSERT INTO Chats ...`. -/
def insertChat (db : DB) (c : ChatRow) : DB :=
  { db with chats := db.chats ++ [c] }

/-- `INSERT INTO Messages ...`. -/
def insertMessage (db : DB) (m : MessageRow) : DB :=
  { db with messages := db.messages ++ [m] }

/-- `UPDATE Chats SET messageCount = messageCount + 2, lastMessageAt =
GETUTCDATE(), updatedAt = GETUTCDATE() WHERE id = @chatId`. -/
def bumpChat (db : DB) (cid : String) (now : Nat) : DB :=
  { db with chats := (db.chats.map
      (fun c => if c.id == cid then
        { c with messageCount := c.messageCount + 2,
                 lastMessageAt := some now, updatedAt := now }
      else c)) }

/- Structural character-list implementations of the JavaScript string
operations the handlers use (`trim`, `substring(0, n)`, `includes`,
`startsWith`, `join`, the UUID regex). They recurse structurally so that
concrete runs of the handlers evaluate inside the kernel. -/

/-- Drop leading whitespace characters. -/
def dropLeadingWs : List Char → List Char
  | [] => []
  | c :: cs => if c.isWhitespace then dropLeadingWs cs else c :: cs

/-- `String.prototype.trim`: strip whitespace from both ends. -/
def strTrim (s : String) : String :=
  String.mk ((dropLeadingWs ((dropLeadingWs s.data).reverse)).reverse)

/-- `String.prototype.substring(0, n)`: the first `n` characters. -/
def strTake (s : String) (n : Nat) : String :=
  String.mk (s.data.take n)

/-- Does the first list lead the second one? -/
def leadMatch : List Char → List Char → Bool
  | [], _ => true
  | _ :: _, [] => false
  | a :: as, b :: bs => a == b && leadMatch as bs

/-- Does `sub` occur contiguously in the list? -/
def subMatch (sub : List Char) : List Char → Bool
  | [] => sub.isEmpty
  | b :: bs => leadMatch sub (b :: bs) || subMatch sub bs

/-- `String.prototype.includes`: substring test. -/
def strIncludes (s sub : String) : Bool :=
  subMatch sub.data s.data

/-- `String.prototype.startsWith`. -/
def strStarts (s p : String) : Bool :=
  leadMatch p.data s.data

/-- `Array.prototype.join(sep)` over strings. -/
def joinWith (sep : String) : List String → String
  | [] => ""
  | [x] => x
  | x :: xs => x ++ sep ++ joinWith sep xs

/-- Split at every dash character. -/
def splitDash : List Char → List (List Char)
  | [] => [[]]
  | c :: cs =>
    let r := splitDash cs
    if c == '-' then [] :: r
    else
      match r with
      | [] => [[c]]
      | h :: t => (c :: h) :: t

/-- Hex digit, either case, as accepted by the workspace-id regex. -/
def isHexDigit (c : Char) : Bool :=
  c.isDigit || ( 'a' ≤ c && c ≤ 'f') || ( 'A' ≤ c && c ≤ 'F')

/-- The anchored, case-insensitive UUID regex
`^[0-9a-f]{8}-[0-9a-f]{4}-[0-9a-f]{4}-[0-9a-f]{4}-[0-9a-f]{12}$` applied to
the incoming `workspaceId`. -/
def isUuid (s : String) : Bool :=
  let parts := splitDash s.data
  parts.length == 5 &&
    ((parts.zip [8, 4, 4, 4, 12]).all
      (fun p => p.1.length == p.2 && p.1.all isHexDigit))

/-- A file object of the request body, after upload: the properties the
handler validates and uses. An absent property is modelled as `""`. -/
structure FileIn where
  originalName : String
  url : String
  fileName : String
deriving Repr, DecidableEq

/-- The body of `POST /chat/message` (the fields the handler uses), together
with the authenticated user. Absent optional strings are modelled as `""`;
`userRole` is `req.user.role`. -/
structure Req where
  userId : String
  userRole : String
  message : String
  chatId : String
  workspaceId : String
  files : List FileIn
deriving Repr, DecidableEq

/-- The per-file validation loop: every file must have `originalName` and
`url` (otherwise the handler responds 400). -/
def validFiles (files : List FileIn) : Bool :=
  files.all (fun f => !(f.originalName == "" || f.url == ""))

/-- The default chat title computed for file-only messages:
`File: <name>` plus ` and <k> more` when several files are attached. -/
def defaultTitleFor (message : String) (files : List FileIn) : String :=
  if strTrim message == "" then
    match files with
    | [] => "New Chat"
    | [f] => "File: " ++ f.originalName
    | f :: rest => "File: " ++ f.originalName ++ " and " ++
        toString rest.length ++ " more"
  else "New Chat"

/-- The per-file section of the prompt, `File: <name>\nContent:\n<content>\n---\n`,
over the (originalName, extracted content) pairs, joined with a newline. -/
def fileContentSection (fcs : List (String × String)) : String :=
  joinWith "\n"
    (fcs.map (fun f => "File: " ++ f.1 ++ "\nContent:\n" ++ f.2 ++ "\n---\n"))

/-- Assembly of the persisted user-message content from the trimmed message
text and the extracted file contents. -/
def buildUserMessageContent (message : String) (fcs : List (String × String)) :
    String :=
  let base := strTrim message
  if fcs.isEmpty then base
  else if base == "" then
    "Analyze the following files:\n\n" ++ fileContentSection fcs
  else
    base ++ "\n\nAttached Files:\n" ++ fileContentSection fcs

/-- The `ensure user exists` step of the handler: look the user up by id;
when missing, in development-with-bypass-auth mode insert a stub user (or
re-point the row that already has the synthetic email), otherwise respond
404. -/
def ensureUser (devBypass : Bool) (db : DB) (uid role : String) :
    Except Nat DB :=
  match findUser db uid with
  | some _ => .ok db
  | none =>
    if devBypass then
      match findUserByEmail db (uid ++ "@example.com") with
      | none => .ok (insertUser db
          ⟨uid, "Test", "User", uid ++ "@example.com",
            if role == "" then "user" else role⟩)
      | some _ => .ok (repointUser db (uid ++ "@example.com") uid)
    else .error 404

/-- The fresh `Default Workspace` row the handler creates as a fallback. -/
def defaultWorkspace (wid uid : String) : WorkspaceRow :=
  ⟨wid, "Default Workspace", "Auto-created default workspace", "#3B82F6", uid⟩

/-- The `get or create workspace` step: a malformed workspaceId is treated as
absent (`normalizeWsId`); an absent one resolves to the user's first
workspace or a fresh default one; a present one is kept only when it exists
and is owned by the user, and otherwise replaced by a fresh default
workspace. -/
def normalizeWsId (wsIn : String) : String :=
  if wsIn != "" && !(isUuid wsIn) then "" else wsIn

/-- The `get or create workspace` body. -/
def resolveWorkspace (db : DB) (uid wsIn wsFresh : String) : String × DB :=
  let w := normalizeWsId wsIn
  if w == "" then
    match firstWorkspaceOf db uid with
    | some ws => (ws.id, db)
    | none => (wsFresh, insertWorkspace db (defaultWorkspace wsFresh uid))
  else
    match findWorkspaceOwned db w uid with
    | some ws => (ws.id, db)
    | none => (wsFresh, insertWorkspace db (defaultWorkspace wsFresh uid))

/-- The title of an auto-created chat: the first 100 characters of the
message, or the default title for file-only messages. -/
def newChatTitle (message titleDefault : String) : String :=
  if message != "" then strTake message 100 else titleDefault

/-- The `get or create chat` step: with no chatId a new chat is inserted;
with a chatId the handler only reads the title (which it never uses later)
and keeps the id as is. -/
def resolveChat (db : DB) (uid wsId chatIdIn chatFresh message titleDefault :
    String) (now : Nat) : String × DB :=
  if chatIdIn == "" then
    (chatFresh,
      insertChat db ⟨chatFresh, newChatTitle message titleDefault,
        "Auto-generated chat", uid, wsId, 0, none, now, now⟩)
  else (chatIdIn, db)

/-- One message of the chat-completion request. -/
structure ChatMsg where
  role : String
  content : String
deriving Repr, DecidableEq

/-- The options of `getChatCompletion`. -/
structure LLMOpts where
  maxTokens : Nat
  temperature : ℚ
deriving Repr, DecidableEq

/-- The options literal of the handler: `{ maxTokens: 1000, temperature: 0.7 }`. -/
def stdOpts : LLMOpts := ⟨1000, 0.7⟩

/-- One recorded call to the chat-completion service. -/
structure LLMCall where
  msgs : List ChatMsg
  opts : LLMOpts
deriving Repr, DecidableEq

/-- The message list sent to the chat-completion service: the system prompt,
the stored history of the chat (which at that point already contains the
just-inserted user message), and the user content once more. -/
def llmInput (sysPrompt : String) (db : DB) (chat content : String) :
    List ChatMsg :=
  ⟨"system", sysPrompt⟩ ::
    ((db.messages.filter (fun m => m.chatId == chat)).map
      (fun m => ⟨m.role, m.content⟩) ++ [⟨"user", content⟩])

/-- The placeholder assistant reply persisted when the LLM call throws. -/
def placeholderReply : String :=
  "Sorry, I encountered an issue processing your request. Please try again."

/-- The outcome of one `POST /chat/message` request: HTTP status, final
database state, the `chatId` of the 200 response, and the chat-completion
calls that were made. -/
structure HandlerResult where
  status : Nat
  db : DB
  respChatId : Option String
  llmCalls : List LLMCall
deriving Repr, DecidableEq

/-- The `POST /chat/message` handler. Parameters model the ambient effects:
`devBypass` is `NODE_ENV === 'development' && BYPASS_AUTH === 'true'`;
`sysPrompt` is `openAIService.getSystemPrompt()`; `extract` is the content the
file-analysis pipeline produces for a file (its internal failures already
folded into the returned string, as the per-file `catch` does); `llm` is the
chat-completion service (`.error` models a thrown exception); `wsFresh`,
`chatFresh`, `userMsgId`, `aiMsgId` are the fresh UUIDs drawn; `now` is
`GETUTCDATE()`. A foreign-key violation on the message insert (nonexistent
chat) surfaces as the catch-all 500. -/
def sendMessage (devBypass : Bool) (sysPrompt : String)
    (extract : FileIn → String)
    (llm : List ChatMsg → LLMOpts → Except String String)
    (wsFresh chatFresh userMsgId aiMsgId : String) (now : Nat)
    (db : DB) (r : Req) : HandlerResult :=
  if strTrim r.message == "" && r.files.isEmpty then ⟨400, db, none, []⟩
  else if !(validFiles r.files) then ⟨400, db, none, []⟩
  else
    match ensureUser devBypass db r.userId r.userRole with
    | .error s => ⟨s, db, none, []⟩
    | .ok db1 =>
      let p2 := resolveWorkspace db1 r.userId r.workspaceId wsFresh
      let p3 := resolveChat p2.2 r.userId p2.1 r.chatId chatFresh r.message
        (defaultTitleFor r.message r.files) now
      let chat := p3.1
      let db3 := p3.2
      let content := buildUserMessageContent r.message
        (r.files.map (fun f => (f.originalName, extract f)))
      if content == "" then ⟨400, db3, none, []⟩
      else if !(chatExists db3 chat) then ⟨500, db3, none, []⟩
      else
        let db4 := insertMessage db3
          ⟨userMsgId, chat, r.userId, content, "user", now⟩
        let msgs := llmInput sysPrompt db4 chat content
        match llm msgs stdOpts with
        | .error _ =>
          let db5 := insertMessage db4
            ⟨aiMsgId, chat, r.userId, placeholderReply, "assistant", now⟩
          ⟨500, bumpChat db5 chat now, none, [⟨msgs, stdOpts⟩]⟩
        | .ok reply =>
          let db5 := insertMessage db4
            ⟨aiMsgId, chat, r.userId, reply, "assistant", now⟩
          ⟨200, bumpChat db5 chat now, some chat, [⟨msgs, stdOpts⟩]⟩

/-- The predicate selecting the `(messageId, userId, actionType)` rows of
`MessageActions` the toggle queries target. -/
def actKey (mid uid ty : String) (a : ActionRow) : Bool :=
  a.messageId == mid && a.userId == uid && a.actionType == ty

/-- `SELECT id FROM MessageActions WHERE messageId = @messageId AND userId =
@userId AND actionType = @actionType` is non-empty. -/
def hasAction (db : DB) (mid uid ty : String) : Bool :=
  db.actions.any (actKey mid uid ty)

/-- `DELETE FROM MessageActions WHERE messageId = ... AND userId = ... AND
actionType = ...`. -/
def removeAction (db : DB) (mid uid ty : String) : DB :=
  { db with actions := db.actions.filter (fun a => !(actKey mid uid ty a)) }

/-- `INSERT INTO MessageActions (id, messageId, userId, actionType) VALUES ...`. -/
def addAction (db : DB) (aid mid uid ty : String) : DB :=
  { db with actions := db.actions ++ [⟨aid, mid, uid, ty⟩] }

/-- The access check of the actions route: the message exists in the given
chat and that chat belongs to the requesting user (the `Messages JOIN Chats`
query). -/
def msgAccessible (db : DB) (uid cid mid : String) : Bool :=
  db.messages.any (fun m => m.id == mid && m.chatId == cid &&
    db.chats.any (fun c => c.id == m.chatId && c.userId == uid))

/-- The outcome of one request to the message-actions endpoint: HTTP status,
final database state, and the `active` flag of the JSON response. -/
structure ActionResult where
  status : Nat
  db : DB
  active : Option Bool
deriving Repr, DecidableEq

/-- The `POST /:chatId/messages/:messageId/actions` handler: validate the
action type, check the message is accessible, then toggle the
`(messageId, userId, actionType)` row; `aid` is the fresh UUID drawn for an
inserted row. -/
def messageAction (aid : String) (db : DB) (uid cid mid ty : String) :
    ActionResult :=
  if !(["like", "dislike", "bookmark", "star"].contains ty) then
    ⟨400, db, none⟩
  else if !(msgAccessible db uid cid mid) then ⟨404, db, none⟩
  else if hasAction db mid uid ty then
    ⟨200, removeAction db mid uid ty, some false⟩
  else
    ⟨200, addAction db aid mid uid ty, some true⟩

/-- A message as the frontend dashboard holds it (fields its action guard
reads). -/
structure FrontMsg where
  id : String
  isUser : Bool
deriving Repr, DecidableEq

/-- The guard of the frontend `handleMessageAction`: temporary and error
messages are skipped, and so are messages not found or sent by the user; only
when this returns `true` does the frontend call the actions endpoint. -/
def frontendAllowsAction (mid : String) (msgs : List FrontMsg) : Bool :=
  if strStarts mid "temp-" || strStarts mid "error-" then false
  else
    match msgs.find? (fun m => m.id == mid) with
    | none => false
    | some m => !m.isUser

/-- The user-facing error text chosen by the frontend `sendMessage` catch
block: a flat ordered list of substring matches on `error.message`, the raw
message when none matches, and a fixed default when the message is absent. -/
def chooseErrorText (m : String) : String :=
  if m == "" then
    "Sorry, there was an error processing your message. Please try again."
  else if strIncludes m "timeout" || strIncludes m "timed out" then
    "The AI service is taking too long to respond. Please try again later."
  else if strIncludes m "overloaded" || strIncludes m "rate limit" then
    "The AI service is currently overloaded. Please wait a moment and try again."
  else if strIncludes m "authentication" || strIncludes m "unauthorized" then
    "Authentication failed. Please refresh the page and try again."
  else if strIncludes m "model" || strIncludes m "configuration" then
    "There is an issue with the AI model configuration. Please contact support."
  else if strIncludes m "workspace" then
    "Workspace configuration error. Please refresh the page and try again."
  else m

/-- The environment variables the four Azure service initializers read.
An unset variable is modelled as `""`; `mockAppConfig` is
`MOCK_APP_CONFIG === 'true'`. -/
structure Env where
  sqlServer : String
  sqlDatabase : String
  sqlUsername : String
  sqlPassword : String
  storageAccountName : String
  storageConnectionString : String
  storageAccountKey : String
  appConfigConnectionString : String
  mockAppConfig : Bool
  openaiEndpoint : String
  openaiApiKey : String
deriving Repr, DecidableEq

/-- What an initializer installs: a real vendor client or the in-memory mock. -/
inductive ClientKind where
  | real
  | mock
deriving Repr, DecidableEq

/-- `initializeSQLDatabase`: throws when any required SQL environment
variable is missing, otherwise connects a real pool (no mock fallback). -/
def initializeSQLDatabase (e : Env) : Except String ClientKind :=
  if e.sqlServer == "" || e.sqlDatabase == "" || e.sqlUsername == "" ||
      e.sqlPassword == "" then
    .error "Missing required SQL database configuration in environment variables"
  else .ok .real

/-- `initializeBlobStorage`: with no account name, or with an account name
but neither connection string nor account key, it installs the in-memory mock
client and returns; otherwise a real client (errors on the real path are also
caught and fall back to the mock, so the initializer never throws). -/
def initializeBlobStorage (e : Env) : Except String ClientKind :=
  if e.storageAccountName == "" then .ok .mock
  else if e.storageConnectionString != "" then .ok .real
  else if e.storageAccountKey != "" then .ok .real
  else .ok .mock

/-- `initializeAppConfiguration`: installs the in-memory mock when mocking
is requested or the connection string is missing, otherwise a real client;
errors on the real path are caught and fall back to the mock, so the
initializer never throws. -/
def initializeAppConfiguration (e : Env) : Except String ClientKind :=
  if e.mockAppConfig || e.appConfigConnectionString == "" then .ok .mock
  else .ok .real

/-- `initializeOpenAI`: throws when the endpoint or the API key is missing,
otherwise builds a real client (no mock fallback). -/
def initializeOpenAI (e : Env) : Except String ClientKind :=
  if e.openaiEndpoint == "" || e.openaiApiKey == "" then
    .error "Azure OpenAI configuration missing in environment variables"
  else .ok .real

example :
    buildUserMessageContent "  hi  " [("a.txt", "abc")] =
      "hi\n\nAttached Files:\nFile: a.txt\nContent:\nabc\n---\n" := by
  decide

example :
    buildUserMessageContent "" [("a.txt", "abc"), ("b.txt", "x")] =
      "Analyze the following files:\n\nFile: a.txt\nContent:\nabc\n---\n\n" ++
        "File: b.txt\nContent:\nx\n---\n" := by
  decide

example : isUuid "123e4567-e89b-12d3-a456-426614174000" = true := by decide

example : isUuid "not-a-uuid" = false := by decide

/-! ### Characterization of the handler paths -/

/-- On the success path — validation passed, user/workspace/chat resolved,
content non-empty, target chat present, chat-completion call returned — the
handler's result is exactly: the user message insert, the assistant message
insert, the chat-counter update, and a 200 response. -/
theorem sendMessage_ok_spec
    (devBypass : Bool) (sysPrompt : String) (extract : FileIn → String)
    (llm : List ChatMsg → LLMOpts → Except String String)
    (wsFresh chatFresh userMsgId aiMsgId : String) (now : Nat)
    (db db1 db2 db3 : DB) (r : Req) (ws chat content reply : String)
    (hval1 : (strTrim r.message == "" && r.files.isEmpty) = false)
    (hval2 : validFiles r.files = true)
    (hu : ensureUser devBypass db r.userId r.userRole = .ok db1)
    (hw : resolveWorkspace db1 r.userId r.workspaceId wsFresh = (ws, db2))
    (hc : resolveChat db2 r.userId ws r.chatId chatFresh r.message
      (defaultTitleFor r.message r.files) now = (chat, db3))
    (hcon : content = buildUserMessageContent r.message
      (r.files.map (fun f => (f.originalName, extract f))))
    (hcne : (content == "") = false)
    (hex : chatExists db3 chat = true)
    (hllm : llm (llmInput sysPrompt (insertMessage db3
        ⟨userMsgId, chat, r.userId, content, "user", now⟩) chat content)
      stdOpts = .ok reply) :
    sendMessage devBypass sysPrompt extract llm wsFresh chatFresh userMsgId
      aiMsgId now db r =
    ⟨200,
     bumpChat (insertMessage (insertMessage db3
        ⟨userMsgId, chat, r.userId, content, "user", now⟩)
        ⟨aiMsgId, chat, r.userId, reply, "assistant", now⟩) chat now,
     some chat,
     [⟨llmInput sysPrompt (insertMessage db3
        ⟨userMsgId, chat, r.userId, content, "user", now⟩) chat content,
       stdOpts⟩]⟩ := by
  subst hcon
  simp [sendMessage, hval1, hval2, hu, hw, hc, hcne, hex, hllm]

/-- On the LLM-failure path — same resolution steps, but the chat-completion
call throws — the handler still inserts the user message and a placeholder
assistant message, still updates the chat counters, and responds 500. -/
theorem sendMessage_err_spec
    (devBypass : Bool) (sysPrompt : String) (extract : FileIn → String)
    (llm : List ChatMsg → LLMOpts → Except String String)
    (wsFresh chatFresh userMsgId aiMsgId : String) (now : Nat)
    (db db1 db2 db3 : DB) (r : Req) (ws chat content err : String)
    (hval1 : (strTrim r.message == "" && r.files.isEmpty) = false)
    (hval2 : validFiles r.files = true)
    (hu : ensureUser devBypass db r.userId r.userRole = .ok db1)
    (hw : resolveWorkspace db1 r.userId r.workspaceId wsFresh = (ws, db2))
    (hc : resolveChat db2 r.userId ws r.chatId chatFresh r.message
      (defaultTitleFor r.message r.files) now = (chat, db3))
    (hcon : content = buildUserMessageContent r.message
      (r.files.map (fun f => (f.originalName, extract f))))
    (hcne : (content == "") = false)
    (hex : chatExists db3 chat = true)
    (hllm : llm (llmInput sysPrompt (insertMessage db3
        ⟨userMsgId, chat, r.userId, content, "user", now⟩) chat content)
      stdOpts = .error err) :
    sendMessage devBypass sysPrompt extract llm wsFresh chatFresh userMsgId
      aiMsgId now db r =
    ⟨500,
     bumpChat (insertMessage (insertMessage db3
        ⟨userMsgId, chat, r.userId, content, "user", now⟩)
        ⟨aiMsgId, chat, r.userId, placeholderReply, "assistant", now⟩)
       chat now,
     none,
     [⟨llmInput sysPrompt (insertMessage db3
        ⟨userMsgId, chat, r.userId, content, "user", now⟩) chat content,
       stdOpts⟩]⟩ := by
  subst hcon
  simp [sendMessage, hval1, hval2, hu, hw, hc, hcne, hex, hllm]

/-! ### C1: success path performs exactly two message inserts and one chat update -/

/-- C1: On the success path of `POST /chat/message` (validation passed,
user/workspace/chat resolved, LLM call succeeded), the handler performs
exactly two inserts into `Messages` — one with role `user` carrying the
assembled user content and one with role `assistant` carrying the LLM
response — and exactly one update of the `Chats` row, adding 2 to
`messageCount` and refreshing `lastMessageAt` and `updatedAt`; no other
table changes after the resolution steps. -/
theorem chat_message_success_two_inserts_one_update
    (devBypass : Bool) (sysPrompt : String) (extract : FileIn → String)
    (llm : List ChatMsg → LLMOpts → Except String String)
    (wsFresh chatFresh userMsgId aiMsgId : String) (now : Nat)
    (db db1 db2 db3 : DB) (r : Req) (ws chat content reply : String)
    (hval1 : (strTrim r.message == "" && r.files.isEmpty) = false)
    (hval2 : validFiles r.files = true)
    (hu : ensureUser devBypass db r.userId r.userRole = .ok db1)
    (hw : resolveWorkspace db1 r.userId r.workspaceId wsFresh = (ws, db2))
    (hc : resolveChat db2 r.userId ws r.chatId chatFresh r.message
      (defaultTitleFor r.message r.files) now = (chat, db3))
    (hcon : content = buildUserMessageContent r.message
      (r.files.map (fun f => (f.originalName, extract f))))
    (hcne : (content == "") = false)
    (hex : chatExists db3 chat = true)
    (hllm : llm (llmInput sysPrompt (insertMessage db3
        ⟨userMsgId, chat, r.userId, content, "user", now⟩) chat content)
      stdOpts = .ok reply) :
    (sendMessage devBypass sysPrompt extract llm wsFresh chatFresh userMsgId
        aiMsgId now db r).status = 200 ∧
    (sendMessage devBypass sysPrompt extract llm wsFresh chatFresh userMsgId
        aiMsgId now db r).db.messages = db3.messages ++
      [⟨userMsgId, chat, r.userId, content, "user", now⟩,
       ⟨aiMsgId, chat, r.userId, reply, "assistant", now⟩] ∧
    (sendMessage devBypass sysPrompt extract llm wsFresh chatFresh userMsgId
        aiMsgId now db r).db.chats = db3.chats.map
      (fun c => if c.id == chat then
        { c with messageCount := c.messageCount + 2,
                 lastMessageAt := some now, updatedAt := now }
      else c) ∧
    (sendMessage devBypass sysPrompt extract llm wsFresh chatFresh userMsgId
        aiMsgId now db r).db.users = db3.users ∧
    (sendMessage devBypass sysPrompt extract llm wsFresh chatFresh userMsgId
        aiMsgId now db r).db.workspaces = db3.workspaces ∧
    (sendMessage devBypass sysPrompt extract llm wsFresh chatFresh userMsgId
        aiMsgId now db r).db.actions = db3.actions := by
  rw [sendMessage_ok_spec devBypass sysPrompt extract llm wsFresh chatFresh
    userMsgId aiMsgId now db db1 db2 db3 r ws chat content reply hval1 hval2
    hu hw hc hcon hcne hex hllm]
  simp [bumpChat, insertMessage]

/-- Witness for C1: a concrete request from an existing user into an existing
chat, with a succeeding LLM call. -/
theorem chat_message_success_two_inserts_one_update_witness :
    (sendMessage false "sys" (fun _ => "") (fun _ _ => .ok "hello") "w9" "c9"
        "m1" "m2" 5
        ⟨[⟨"u1", "A", "B", "u1@e", "user"⟩],
         [⟨"w1", "W", "", "#3B82F6", "u1"⟩],
         [⟨"c1", "T", "", "u1", "w1", 0, none, 0, 0⟩], [], []⟩
        ⟨"u1", "user", "hi", "c1", "", []⟩).status = 200 ∧
    (sendMessage false "sys" (fun _ => "") (fun _ _ => .ok "hello") "w9" "c9"
        "m1" "m2" 5
        ⟨[⟨"u1", "A", "B", "u1@e", "user"⟩],
         [⟨"w1", "W", "", "#3B82F6", "u1"⟩],
         [⟨"c1", "T", "", "u1", "w1", 0, none, 0, 0⟩], [], []⟩
        ⟨"u1", "user", "hi", "c1", "", []⟩).db.messages =
      [⟨"m1", "c1", "u1", "hi", "user", 5⟩,
       ⟨"m2", "c1", "u1", "hello", "assistant", 5⟩] ∧
    (sendMessage false "sys" (fun _ => "") (fun _ _ => .ok "hello") "w9" "c9"
        "m1" "m2" 5
        ⟨[⟨"u1", "A", "B", "u1@e", "user"⟩],
         [⟨"w1", "W", "", "#3B82F6", "u1"⟩],
         [⟨"c1", "T", "", "u1", "w1", 0, none, 0, 0⟩], [], []⟩
        ⟨"u1", "user", "hi", "c1", "", []⟩).db.chats =
      [⟨"c1", "T", "", "u1", "w1", 2, some 5, 0, 5⟩] := by
  have h := chat_message_success_two_inserts_one_update false "sys"
    (fun _ => "") (fun _ _ => .ok "hello") "w9" "c9" "m1" "m2" 5
    ⟨[⟨"u1", "A", "B", "u1@e", "user"⟩],
     [⟨"w1", "W", "", "#3B82F6", "u1"⟩],
     [⟨"c1", "T", "", "u1", "w1", 0, none, 0, 0⟩], [], []⟩
    ⟨[⟨"u1", "A", "B", "u1@e", "user"⟩],
     [⟨"w1", "W", "", "#3B82F6", "u1"⟩],
     [⟨"c1", "T", "", "u1", "w1", 0, none, 0, 0⟩], [], []⟩
    ⟨[⟨"u1", "A", "B", "u1@e", "user"⟩],
     [⟨"w1", "W", "", "#3B82F6", "u1"⟩],
     [⟨"c1", "T", "", "u1", "w1", 0, none, 0, 0⟩], [], []⟩
    ⟨[⟨"u1", "A", "B", "u1@e", "user"⟩],
     [⟨"w1", "W", "", "#3B82F6", "u1"⟩],
     [⟨"c1", "T", "", "u1", "w1", 0, none, 0, 0⟩], [], []⟩
    ⟨"u1", "user", "hi", "c1", "", []⟩ "w1" "c1" "hi" "hello"
    rfl rfl rfl rfl rfl rfl rfl rfl rfl
  exact ⟨h.1, h.2.1, h.2.2.1⟩

/-! ### C2: LLM failure still persists a placeholder and returns 500 -/

/-- C2: In `POST /chat/message`, if the chat-completion call throws, the
handler still inserts the placeholder assistant message into `Messages`,
still adds 2 to the chat's `messageCount` (refreshing `lastMessageAt` and
`updatedAt`), and responds with HTTP status 500; the user message inserted
before the LLM call remains persisted. -/
theorem chat_message_llm_failure_placeholder_500
    (devBypass : Bool) (sysPrompt : String) (extract : FileIn → String)
    (llm : List ChatMsg → LLMOpts → Except String String)
    (wsFresh chatFresh userMsgId aiMsgId : String) (now : Nat)
    (db db1 db2 db3 : DB) (r : Req) (ws chat content err : String)
    (hval1 : (strTrim r.message == "" && r.files.isEmpty) = false)
    (hval2 : validFiles r.files = true)
    (hu : ensureUser devBypass db r.userId r.userRole = .ok db1)
    (hw : resolveWorkspace db1 r.userId r.workspaceId wsFresh = (ws, db2))
    (hc : resolveChat db2 r.userId ws r.chatId chatFresh r.message
      (defaultTitleFor r.message r.files) now = (chat, db3))
    (hcon : content = buildUserMessageContent r.message
      (r.files.map (fun f => (f.originalName, extract f))))
    (hcne : (content == "") = false)
    (hex : chatExists db3 chat = true)
    (hllm : llm (llmInput sysPrompt (insertMessage db3
        ⟨userMsgId, chat, r.userId, content, "user", now⟩) chat content)
      stdOpts = .error err) :
    (sendMessage devBypass sysPrompt extract llm wsFresh chatFresh userMsgId
        aiMsgId now db r).status = 500 ∧
    (sendMessage devBypass sysPrompt extract llm wsFresh chatFresh userMsgId
        aiMsgId now db r).db.messages = db3.messages ++
      [⟨userMsgId, chat, r.userId, content, "user", now⟩,
       ⟨aiMsgId, chat, r.userId,
        "Sorry, I encountered an issue processing your request. Please try again.",
        "assistant", now⟩] ∧
    (sendMessage devBypass sysPrompt extract llm wsFresh chatFresh userMsgId
        aiMsgId now db r).db.chats = db3.chats.map
      (fun c => if c.id == chat then
        { c with messageCount := c.messageCount + 2,
                 lastMessageAt := some now, updatedAt := now }
      else c) := by
  rw [sendMessage_err_spec devBypass sysPrompt extract llm wsFresh chatFresh
    userMsgId aiMsgId now db db1 db2 db3 r ws chat content err hval1 hval2
    hu hw hc hcon hcne hex hllm]
  refine ⟨rfl, ?_, ?_⟩ <;> simp [bumpChat, insertMessage, placeholderReply]

/-- Witness for C2: a concrete request whose LLM call throws. -/
theorem chat_message_llm_failure_placeholder_500_witness :
    (sendMessage false "sys" (fun _ => "") (fun _ _ => .error "boom") "w9"
        "c9" "m1" "m2" 5
        ⟨[⟨"u1", "A", "B", "u1@e", "user"⟩],
         [⟨"w1", "W", "", "#3B82F6", "u1"⟩],
         [⟨"c1", "T", "", "u1", "w1", 0, none, 0, 0⟩], [], []⟩
        ⟨"u1", "user", "hi", "c1", "", []⟩).status = 500 ∧
    (sendMessage false "sys" (fun _ => "") (fun _ _ => .error "boom") "w9"
        "c9" "m1" "m2" 5
        ⟨[⟨"u1", "A", "B", "u1@e", "user"⟩],
         [⟨"w1", "W", "", "#3B82F6", "u1"⟩],
         [⟨"c1", "T", "", "u1", "w1", 0, none, 0, 0⟩], [], []⟩
        ⟨"u1", "user", "hi", "c1", "", []⟩).db.messages =
      [⟨"m1", "c1", "u1", "hi", "user", 5⟩,
       ⟨"m2", "c1", "u1",
        "Sorry, I encountered an issue processing your request. Please try again.",
        "assistant", 5⟩] ∧
    (sendMessage false "sys" (fun _ => "") (fun _ _ => .error "boom") "w9"
        "c9" "m1" "m2" 5
        ⟨[⟨"u1", "A", "B", "u1@e", "user"⟩],
         [⟨"w1", "W", "", "#3B82F6", "u1"⟩],
         [⟨"c1", "T", "", "u1", "w1", 0, none, 0, 0⟩], [], []⟩
        ⟨"u1", "user", "hi", "c1", "", []⟩).db.chats =
      [⟨"c1", "T", "", "u1", "w1", 2, some 5, 0, 5⟩] := by
  have h := chat_message_llm_failure_placeholder_500 false "sys"
    (fun _ => "") (fun _ _ => .error "boom") "w9" "c9" "m1" "m2" 5
    ⟨[⟨"u1", "A", "B", "u1@e", "user"⟩],
     [⟨"w1", "W", "", "#3B82F6", "u1"⟩],
     [⟨"c1", "T", "", "u1", "w1", 0, none, 0, 0⟩], [], []⟩
    ⟨[⟨"u1", "A", "B", "u1@e", "user"⟩],
     [⟨"w1", "W", "", "#3B82F6", "u1"⟩],
     [⟨"c1", "T", "", "u1", "w1", 0, none, 0, 0⟩], [], []⟩
    ⟨[⟨"u1", "A", "B", "u1@e", "user"⟩],
     [⟨"w1", "W", "", "#3B82F6", "u1"⟩],
     [⟨"c1", "T", "", "u1", "w1", 0, none, 0, 0⟩], [], []⟩
    ⟨[⟨"u1", "A", "B", "u1@e", "user"⟩],
     [⟨"w1", "W", "", "#3B82F6", "u1"⟩],
     [⟨"c1", "T", "", "u1", "w1", 0, none, 0, 0⟩], [], []⟩
    ⟨"u1", "user", "hi", "c1", "", []⟩ "w1" "c1" "hi" "boom"
    rfl rfl rfl rfl rfl rfl rfl rfl rfl
  exact ⟨h.1, h.2.1, h.2.2⟩

/-! ### C5: shape of the assembled user-message content -/

/-- With files attached and a message that trims non-empty, the assembled
content is the trimmed message, the attached-files header, and the per-file
sections joined with a newline. -/
theorem buildUserMessageContent_of_trim_ne (message : String)
    (fcs : List (String × String)) (h : fcs ≠ [])
    (ht : (strTrim message == "") = false) :
    buildUserMessageContent message fcs =
      strTrim message ++ "\n\nAttached Files:\n" ++
        joinWith "\n" (fcs.map
          (fun f => "File: " ++ f.1 ++ "\nContent:\n" ++ f.2 ++ "\n---\n")) := by
  simp [buildUserMessageContent, fileContentSection, ht]
  exact fun h2 => absurd h2 h

/-- With files attached and a message that trims empty, the assembled content
is the analyze header and the per-file sections joined with a newline. -/
theorem buildUserMessageContent_of_trim_eq (message : String)
    (fcs : List (String × String)) (h : fcs ≠ [])
    (ht : (strTrim message == "") = true) :
    buildUserMessageContent message fcs =
      "Analyze the following files:\n\n" ++
        joinWith "\n" (fcs.map
          (fun f => "File: " ++ f.1 ++ "\nContent:\n" ++ f.2 ++ "\n---\n")) := by
  simp [buildUserMessageContent, fileContentSection, ht]
  exact fun h2 => absurd h2 h

/-- C5: When files accompany a successful `POST /chat/message` request, the
persisted user-message content is built by string concatenation: for a
message with non-empty trim it is the trimmed message, `\n\nAttached
Files:\n`, and the per-file sections `File: <originalName>\nContent:\n
<extracted content>\n---\n` joined with `\n`; for an empty (all-whitespace)
message it is `Analyze the following files:\n\n` followed by the same
sections. -/
theorem chat_message_attached_files_content
    (devBypass : Bool) (sysPrompt : String) (extract : FileIn → String)
    (llm : List ChatMsg → LLMOpts → Except String String)
    (wsFresh chatFresh userMsgId aiMsgId : String) (now : Nat)
    (db db1 db2 db3 : DB) (r : Req) (ws chat content reply : String)
    (hfiles : r.files ≠ [])
    (hval1 : (strTrim r.message == "" && r.files.isEmpty) = false)
    (hval2 : validFiles r.files = true)
    (hu : ensureUser devBypass db r.userId r.userRole = .ok db1)
    (hw : resolveWorkspace db1 r.userId r.workspaceId wsFresh = (ws, db2))
    (hc : resolveChat db2 r.userId ws r.chatId chatFresh r.message
      (defaultTitleFor r.message r.files) now = (chat, db3))
    (hcon : content = buildUserMessageContent r.message
      (r.files.map (fun f => (f.originalName, extract f))))
    (hcne : (content == "") = false)
    (hex : chatExists db3 chat = true)
    (hllm : llm (llmInput sysPrompt (insertMessage db3
        ⟨userMsgId, chat, r.userId, content, "user", now⟩) chat content)
      stdOpts = .ok reply) :
    ((strTrim r.message == "") = false →
      (sendMessage devBypass sysPrompt extract llm wsFresh chatFresh
          userMsgId aiMsgId now db r).db.messages = db3.messages ++
        [⟨userMsgId, chat, r.userId,
          strTrim r.message ++ "\n\nAttached Files:\n" ++
            joinWith "\n" (r.files.map (fun f =>
              "File: " ++ f.originalName ++ "\nContent:\n" ++ extract f ++
                "\n---\n")),
          "user", now⟩,
         ⟨aiMsgId, chat, r.userId, reply, "assistant", now⟩]) ∧
    ((strTrim r.message == "") = true →
      (sendMessage devBypass sysPrompt extract llm wsFresh chatFresh
          userMsgId aiMsgId now db r).db.messages = db3.messages ++
        [⟨userMsgId, chat, r.userId,
          "Analyze the following files:\n\n" ++
            joinWith "\n" (r.files.map (fun f =>
              "File: " ++ f.originalName ++ "\nContent:\n" ++ extract f ++
                "\n---\n")),
          "user", now⟩,
         ⟨aiMsgId, chat, r.userId, reply, "assistant", now⟩]) := by
  have hm : r.files.map (fun f => (f.originalName, extract f)) ≠ [] := by
    simpa using hfiles
  constructor <;> intro ht
  · rw [sendMessage_ok_spec devBypass sysPrompt extract llm wsFresh chatFresh
      userMsgId aiMsgId now db db1 db2 db3 r ws chat content reply hval1
      hval2 hu hw hc hcon hcne hex hllm]
    simp only [bumpChat, insertMessage]
    rw [hcon, buildUserMessageContent_of_trim_ne _ _ hm ht]
    simp only [List.map_map, List.append_assoc]
    rfl
  · rw [sendMessage_ok_spec devBypass sysPrompt extract llm wsFresh chatFresh
      userMsgId aiMsgId now db db1 db2 db3 r ws chat content reply hval1
      hval2 hu hw hc hcon hcne hex hllm]
    simp only [bumpChat, insertMessage]
    rw [hcon, buildUserMessageContent_of_trim_eq _ _ hm ht]
    simp only [List.map_map, List.append_assoc]
    rfl

/-- Witness for C5: one attached file, non-empty message. -/
theorem chat_message_attached_files_content_witness :
    (sendMessage false "sys" (fun _ => "abc") (fun _ _ => .ok "hello") "w9"
        "c9" "m1" "m2" 5
        ⟨[⟨"u1", "A", "B", "u1@e", "user"⟩],
         [⟨"w1", "W", "", "#3B82F6", "u1"⟩],
         [⟨"c1", "T", "", "u1", "w1", 0, none, 0, 0⟩], [], []⟩
        ⟨"u1", "user", "hi", "c1", "",
         [⟨"a.txt", "http://x/a", "a"⟩]⟩).db.messages =
      [⟨"m1", "c1", "u1",
        "hi\n\nAttached Files:\nFile: a.txt\nContent:\nabc\n---\n",
        "user", 5⟩,
       ⟨"m2", "c1", "u1", "hello", "assistant", 5⟩] := by
  have h := (chat_message_attached_files_content false "sys" (fun _ => "abc")
    (fun _ _ => .ok "hello") "w9" "c9" "m1" "m2" 5
    ⟨[⟨"u1", "A", "B", "u1@e", "user"⟩],
     [⟨"w1", "W", "", "#3B82F6", "u1"⟩],
     [⟨"c1", "T", "", "u1", "w1", 0, none, 0, 0⟩], [], []⟩
    ⟨[⟨"u1", "A", "B", "u1@e", "user"⟩],
     [⟨"w1", "W", "", "#3B82F6", "u1"⟩],
     [⟨"c1", "T", "", "u1", "w1", 0, none, 0, 0⟩], [], []⟩
    ⟨[⟨"u1", "A", "B", "u1@e", "user"⟩],
     [⟨"w1", "W", "", "#3B82F6", "u1"⟩],
     [⟨"c1", "T", "", "u1", "w1", 0, none, 0, 0⟩], [], []⟩
    ⟨[⟨"u1", "A", "B", "u1@e", "user"⟩],
     [⟨"w1", "W", "", "#3B82F6", "u1"⟩],
     [⟨"c1", "T", "", "u1", "w1", 0, none, 0, 0⟩], [], []⟩
    ⟨"u1", "user", "hi", "c1", "", [⟨"a.txt", "http://x/a", "a"⟩]⟩
    "w1" "c1" "hi\n\nAttached Files:\nFile: a.txt\nContent:\nabc\n---\n"
    "hello" (by decide) rfl rfl rfl rfl rfl rfl rfl rfl rfl).1 rfl
  exact h

/-! ### C6: fixed chat-completion configuration -/

/-- C6: every chat-completion call made by `POST /chat/message` — for every
request, database state, message content, files and history — uses the fixed
configuration `maxTokens = 1000` and `temperature = 0.7`. -/
theorem chat_message_fixed_llm_options
    (devBypass : Bool) (sysPrompt : String) (extract : FileIn → String)
    (llm : List ChatMsg → LLMOpts → Except String String)
    (wsFresh chatFresh userMsgId aiMsgId : String) (now : Nat)
    (db : DB) (r : Req) (call : LLMCall)
    (hmem : call ∈ (sendMessage devBypass sysPrompt extract llm wsFresh
      chatFresh userMsgId aiMsgId now db r).llmCalls) :
    call.opts.maxTokens = 1000 ∧ call.opts.temperature = 0.7 := by
  unfold sendMessage at hmem
  simp only [] at hmem
  repeat' split at hmem
  all_goals simp_all [stdOpts]

/-- Witness for C6: the call made on a concrete successful request carries
the fixed options. -/
theorem chat_message_fixed_llm_options_witness :
    (⟨llmInput "sys" (insertMessage
        ⟨[⟨"u1", "A", "B", "u1@e", "user"⟩],
         [⟨"w1", "W", "", "#3B82F6", "u1"⟩],
         [⟨"c1", "T", "", "u1", "w1", 0, none, 0, 0⟩], [], []⟩
        ⟨"m1", "c1", "u1", "hi", "user", 5⟩) "c1" "hi",
      stdOpts⟩ : LLMCall).opts.maxTokens = 1000 ∧
    (⟨llmInput "sys" (insertMessage
        ⟨[⟨"u1", "A", "B", "u1@e", "user"⟩],
         [⟨"w1", "W", "", "#3B82F6", "u1"⟩],
         [⟨"c1", "T", "", "u1", "w1", 0, none, 0, 0⟩], [], []⟩
        ⟨"m1", "c1", "u1", "hi", "user", 5⟩) "c1" "hi",
      stdOpts⟩ : LLMCall).opts.temperature = 0.7 :=
  chat_message_fixed_llm_options false "sys" (fun _ => "")
    (fun _ _ => .ok "hello") "w9" "c9" "m1" "m2" 5
    ⟨[⟨"u1", "A", "B", "u1@e", "user"⟩],
     [⟨"w1", "W", "", "#3B82F6", "u1"⟩],
     [⟨"c1", "T", "", "u1", "w1", 0, none, 0, 0⟩], [], []⟩
    ⟨"u1", "user", "hi", "c1", "", []⟩ _
    (by
      rw [sendMessage_ok_spec false "sys" (fun _ => "")
        (fun _ _ => .ok "hello") "w9" "c9" "m1" "m2" 5
        ⟨[⟨"u1", "A", "B", "u1@e", "user"⟩],
         [⟨"w1", "W", "", "#3B82F6", "u1"⟩],
         [⟨"c1", "T", "", "u1", "w1", 0, none, 0, 0⟩], [], []⟩
        ⟨[⟨"u1", "A", "B", "u1@e", "user"⟩],
         [⟨"w1", "W", "", "#3B82F6", "u1"⟩],
         [⟨"c1", "T", "", "u1", "w1", 0, none, 0, 0⟩], [], []⟩
        ⟨[⟨"u1", "A", "B", "u1@e", "user"⟩],
         [⟨"w1", "W", "", "#3B82F6", "u1"⟩],
         [⟨"c1", "T", "", "u1", "w1", 0, none, 0, 0⟩], [], []⟩
        ⟨[⟨"u1", "A", "B", "u1@e", "user"⟩],
         [⟨"w1", "W", "", "#3B82F6", "u1"⟩],
         [⟨"c1", "T", "", "u1", "w1", 0, none, 0, 0⟩], [], []⟩
        ⟨"u1", "user", "hi", "c1", "", []⟩ "w1" "c1" "hi" "hello"
        rfl rfl rfl rfl rfl rfl rfl rfl rfl]
      exact List.mem_singleton.mpr rfl)

/-! ### C3: which workspace does the message land in? -/

/-- The workspace-resolution step never touches `Messages` or `Chats`. -/
theorem resolveWorkspace_snd_preserved (db : DB) (uid wsIn wsFresh : String) :
    ((resolveWorkspace db uid wsIn wsFresh).2).messages = db.messages ∧
    ((resolveWorkspace db uid wsIn wsFresh).2).chats = db.chats := by
  unfold resolveWorkspace
  simp only []
  split
  · split <;> simp [insertWorkspace]
  · split <;> simp [insertWorkspace]

/-- Whatever the incoming `workspaceId` was, the workspace id the resolution
step returns names a workspace owned by the requesting user in the resulting
database. -/
theorem resolveWorkspace_owner (db : DB) (uid wsIn wsFresh ws : String)
    (db2 : DB) (h : resolveWorkspace db uid wsIn wsFresh = (ws, db2)) :
    ∃ w ∈ db2.workspaces, w.id = ws ∧ w.ownerId = uid := by
  unfold resolveWorkspace at h
  simp only [] at h
  split at h
  · split at h
    next ws0 heq =>
      obtain ⟨h1, h2⟩ := Prod.mk.injEq .. ▸ h
      subst h1; subst h2
      exact ⟨ws0, List.mem_of_find?_eq_some heq, rfl,
        by simpa using List.find?_some heq⟩
    next heq =>
      obtain ⟨h1, h2⟩ := Prod.mk.injEq .. ▸ h
      subst h1; subst h2
      exact ⟨defaultWorkspace wsFresh uid,
        by simp [insertWorkspace, defaultWorkspace], rfl, rfl⟩
  · split at h
    next ws0 heq =>
      obtain ⟨h1, h2⟩ := Prod.mk.injEq .. ▸ h
      subst h1; subst h2
      have hp := List.find?_some heq
      simp only [Bool.and_eq_true, beq_iff_eq] at hp
      exact ⟨ws0, List.mem_of_find?_eq_some heq, rfl, hp.2⟩
    next heq =>
      obtain ⟨h1, h2⟩ := Prod.mk.injEq .. ▸ h
      subst h1; subst h2
      exact ⟨defaultWorkspace wsFresh uid,
        by simp [insertWorkspace, defaultWorkspace], rfl, rfl⟩

/-- `llmInput` reads only the `Messages` table. -/
theorem llmInput_congr (sysPrompt : String) (dbA dbB : DB)
    (chat content : String) (h : dbA.messages = dbB.messages) :
    llmInput sysPrompt dbA chat content =
      llmInput sysPrompt dbB chat content := by
  simp [llmInput, h]

/-- A freshly inserted chat passes the existence check. -/
theorem chatExists_insertChat_self (db : DB) (c : ChatRow) :
    chatExists (insertChat db c) c.id = true := by
  simp [chatExists, insertChat]

/-- Counterexample to C3 as stated: user `u1` sends a message giving the
`chatId` of a chat owned by `u2` that lives in `u2`'s workspace `w2`. The
request succeeds (status 200) and the messages land in that chat, whose
workspace is owned by `u2`, not by the requesting user `u1`; the repaired
workspace id is simply never applied when a `chatId` is supplied. -/
theorem chat_message_foreign_chat_counterexample :
    (sendMessage false "sys" (fun _ => "") (fun _ _ => .ok "hello") "w9" "c9"
        "m1" "m2" 5
        ⟨[⟨"u1", "A", "B", "u1@e", "user"⟩, ⟨"u2", "C", "D", "u2@e", "user"⟩],
         [⟨"w2", "W2", "", "#3B82F6", "u2"⟩],
         [⟨"c2", "T", "", "u2", "w2", 0, none, 0, 0⟩], [], []⟩
        ⟨"u1", "user", "hi", "c2", "", []⟩).status = 200 ∧
    (sendMessage false "sys" (fun _ => "") (fun _ _ => .ok "hello") "w9" "c9"
        "m1" "m2" 5
        ⟨[⟨"u1", "A", "B", "u1@e", "user"⟩, ⟨"u2", "C", "D", "u2@e", "user"⟩],
         [⟨"w2", "W2", "", "#3B82F6", "u2"⟩],
         [⟨"c2", "T", "", "u2", "w2", 0, none, 0, 0⟩], [], []⟩
        ⟨"u1", "user", "hi", "c2", "", []⟩).respChatId = some "c2" ∧
    (sendMessage false "sys" (fun _ => "") (fun _ _ => .ok "hello") "w9" "c9"
        "m1" "m2" 5
        ⟨[⟨"u1", "A", "B", "u1@e", "user"⟩, ⟨"u2", "C", "D", "u2@e", "user"⟩],
         [⟨"w2", "W2", "", "#3B82F6", "u2"⟩],
         [⟨"c2", "T", "", "u2", "w2", 0, none, 0, 0⟩], [], []⟩
        ⟨"u1", "user", "hi", "c2", "", []⟩).db.messages =
      [⟨"m1", "c2", "u1", "hi", "user", 5⟩,
       ⟨"m2", "c2", "u1", "hello", "assistant", 5⟩] ∧
    findChat (sendMessage false "sys" (fun _ => "") (fun _ _ => .ok "hello")
        "w9" "c9" "m1" "m2" 5
        ⟨[⟨"u1", "A", "B", "u1@e", "user"⟩, ⟨"u2", "C", "D", "u2@e", "user"⟩],
         [⟨"w2", "W2", "", "#3B82F6", "u2"⟩],
         [⟨"c2", "T", "", "u2", "w2", 0, none, 0, 0⟩], [], []⟩
        ⟨"u1", "user", "hi", "c2", "", []⟩).db "c2" =
      some ⟨"c2", "T", "", "u2", "w2", 2, some 5, 0, 5⟩ ∧
    (∀ w ∈ (sendMessage false "sys" (fun _ => "") (fun _ _ => .ok "hello")
        "w9" "c9" "m1" "m2" 5
        ⟨[⟨"u1", "A", "B", "u1@e", "user"⟩, ⟨"u2", "C", "D", "u2@e", "user"⟩],
         [⟨"w2", "W2", "", "#3B82F6", "u2"⟩],
         [⟨"c2", "T", "", "u2", "w2", 0, none, 0, 0⟩], [], []⟩
        ⟨"u1", "user", "hi", "c2", "", []⟩).db.workspaces,
      w.id = "w2" → w.ownerId ≠ "u1") := by
  refine ⟨rfl, rfl, rfl, rfl, ?_⟩
  decide

/-- C3 amended: when the request creates the chat (no `chatId` supplied), the
created chat's workspace is owned by the requesting user — an absent,
malformed, nonexistent, or foreign `workspaceId` having been repaired to an
owned or fresh default workspace — and whatever `workspaceId` the request
carries, it is never the reason for a rejection: the same request succeeds
with any `workspaceId` value. (When a `chatId` is supplied the resolved
workspace is not applied to the existing chat, see the counterexample.) -/
theorem chat_message_created_chat_workspace_owned
    (devBypass : Bool) (sysPrompt : String) (extract : FileIn → String)
    (llm : List ChatMsg → LLMOpts → Except String String)
    (wsFresh chatFresh userMsgId aiMsgId : String) (now : Nat)
    (db db1 db2 : DB) (r : Req) (ws content reply : String)
    (hchat : r.chatId = "")
    (hval1 : (strTrim r.message == "" && r.files.isEmpty) = false)
    (hval2 : validFiles r.files = true)
    (hu : ensureUser devBypass db r.userId r.userRole = .ok db1)
    (hw : resolveWorkspace db1 r.userId r.workspaceId wsFresh = (ws, db2))
    (hcon : content = buildUserMessageContent r.message
      (r.files.map (fun f => (f.originalName, extract f))))
    (hcne : (content == "") = false)
    (hllm : ∀ dbz : DB, dbz.messages = db1.messages →
      llm (llmInput sysPrompt (insertMessage dbz
          ⟨userMsgId, chatFresh, r.userId, content, "user", now⟩)
        chatFresh content) stdOpts = .ok reply) :
    (∃ ch ∈ (sendMessage devBypass sysPrompt extract llm wsFresh chatFresh
        userMsgId aiMsgId now db r).db.chats,
      ch.id = chatFresh ∧
      ∃ w ∈ (sendMessage devBypass sysPrompt extract llm wsFresh chatFresh
          userMsgId aiMsgId now db r).db.workspaces,
        w.id = ch.workspaceId ∧ w.ownerId = r.userId) ∧
    (∀ wsId2 : String,
      (sendMessage devBypass sysPrompt extract llm wsFresh chatFresh
        userMsgId aiMsgId now db { r with workspaceId := wsId2 }).status =
        200) := by
  have hmsg2 : db2.messages = db1.messages := by
    have h := (resolveWorkspace_snd_preserved db1 r.userId r.workspaceId
      wsFresh).1
    rw [hw] at h
    exact h
  constructor
  · -- the created chat's workspace is owned by the user
    have hcr : resolveChat db2 r.userId ws r.chatId chatFresh r.message
        (defaultTitleFor r.message r.files) now =
        (chatFresh, insertChat db2
          ⟨chatFresh, newChatTitle r.message
            (defaultTitleFor r.message r.files),
           "Auto-generated chat", r.userId, ws, 0, none, now, now⟩) := by
      rw [hchat]
      rfl
    rw [sendMessage_ok_spec devBypass sysPrompt extract llm wsFresh chatFresh
      userMsgId aiMsgId now db db1 db2 _ r ws chatFresh content reply hval1
      hval2 hu hw hcr hcon hcne (chatExists_insertChat_self db2 _)
      (hllm _ (by simp [insertChat, hmsg2]))]
    simp only [bumpChat, insertMessage, insertChat]
    refine ⟨_, List.mem_map_of_mem _ (List.mem_append_right _
      (List.mem_singleton_self _)), ?_, ?_⟩
    · simp
    · obtain ⟨w0, hmem, hid, hown⟩ := resolveWorkspace_owner db1 r.userId
        r.workspaceId wsFresh ws db2 hw
      exact ⟨w0, hmem, by simp [hid], hown⟩
  · -- the request succeeds with any workspaceId value
    intro wsId2
    have hcr : resolveChat
        (resolveWorkspace db1 r.userId wsId2 wsFresh).2 r.userId
        (resolveWorkspace db1 r.userId wsId2 wsFresh).1 r.chatId chatFresh
        r.message (defaultTitleFor r.message r.files) now =
        (chatFresh, insertChat (resolveWorkspace db1 r.userId wsId2 wsFresh).2
          ⟨chatFresh, newChatTitle r.message
            (defaultTitleFor r.message r.files),
           "Auto-generated chat", r.userId,
           (resolveWorkspace db1 r.userId wsId2 wsFresh).1, 0, none, now,
           now⟩) := by
      rw [hchat]
      rfl
    rw [sendMessage_ok_spec devBypass sysPrompt extract llm wsFresh chatFresh
      userMsgId aiMsgId now db db1
      (resolveWorkspace db1 r.userId wsId2 wsFresh).2 _
      { r with workspaceId := wsId2 }
      (resolveWorkspace db1 r.userId wsId2 wsFresh).1 chatFresh content reply
      hval1 hval2 hu rfl hcr hcon hcne (chatExists_insertChat_self _ _)
      (hllm _ (by
        simp [insertChat,
          (resolveWorkspace_snd_preserved db1 r.userId wsId2 wsFresh).1]))]

/-- Witness for the amended C3: a user with no workspace sends a first
message with no chatId; a fresh default workspace owned by the user is
created and the created chat lands in it, and any workspaceId value leaves
the request succeeding. -/
theorem chat_message_created_chat_workspace_owned_witness :
    (∃ ch ∈ (sendMessage false "sys" (fun _ => "") (fun _ _ => .ok "hello")
        "w9" "c9" "m1" "m2" 5
        ⟨[⟨"u1", "A", "B", "u1@e", "user"⟩], [], [], [], []⟩
        ⟨"u1", "user", "hi", "", "", []⟩).db.chats,
      ch.id = "c9" ∧
      ∃ w ∈ (sendMessage false "sys" (fun _ => "") (fun _ _ => .ok "hello")
          "w9" "c9" "m1" "m2" 5
          ⟨[⟨"u1", "A", "B", "u1@e", "user"⟩], [], [], [], []⟩
          ⟨"u1", "user", "hi", "", "", []⟩).db.workspaces,
        w.id = ch.workspaceId ∧ w.ownerId = "u1") ∧
    (∀ wsId2 : String,
      (sendMessage false "sys" (fun _ => "") (fun _ _ => .ok "hello")
        "w9" "c9" "m1" "m2" 5
        ⟨[⟨"u1", "A", "B", "u1@e", "user"⟩], [], [], [], []⟩
        ⟨"u1", "user", "hi", "", wsId2, []⟩).status = 200) :=
  chat_message_created_chat_workspace_owned false "sys" (fun _ => "")
    (fun _ _ => .ok "hello") "w9" "c9" "m1" "m2" 5
    ⟨[⟨"u1", "A", "B", "u1@e", "user"⟩], [], [], [], []⟩
    ⟨[⟨"u1", "A", "B", "u1@e", "user"⟩], [], [], [], []⟩
    ⟨[⟨"u1", "A", "B", "u1@e", "user"⟩],
     [⟨"w9", "Default Workspace", "Auto-created default workspace",
       "#3B82F6", "u1"⟩], [], [], []⟩
    ⟨"u1", "user", "hi", "", "", []⟩ "w9" "hi" "hello"
    rfl rfl rfl rfl rfl rfl rfl (fun _ _ => rfl)

/-! ### C4: what happens when the authenticated user has no Users row -/

/-- Counterexample to C4 as stated: outside development-with-bypass-auth
mode, a request whose authenticated user has no `Users` row is rejected with
404 and nothing is repaired or persisted — there is no unconditional
create-if-missing fallback. -/
theorem chat_message_missing_user_404_counterexample :
    sendMessage false "sys" (fun _ => "") (fun _ _ => .ok "hello") "w9" "c9"
        "m1" "m2" 5 ⟨[], [], [], [], []⟩
        ⟨"u1", "user", "hi", "", "", []⟩ =
      ⟨404, ⟨[], [], [], [], []⟩, none, []⟩ := by
  rfl

/-- C4 amended: the create-if-missing fallback for a missing `Users` row runs
only in development mode with bypass auth, where the user-existence step
always succeeds and afterwards a row with the authenticated id exists
(inserted, or an existing row with the synthetic email re-pointed), so the
request proceeds; outside that mode the handler rejects the request with 404
before persisting anything. -/
theorem chat_message_missing_user_fallback_dev_only :
    (∀ (db : DB) (uid role : String),
      ∃ db1, ensureUser true db uid role = .ok db1 ∧
        (findUser db uid = none → ∃ u ∈ db1.users, u.id = uid)) ∧
    (∀ (sysPrompt : String) (extract : FileIn → String)
      (llm : List ChatMsg → LLMOpts → Except String String)
      (wsFresh chatFresh userMsgId aiMsgId : String) (now : Nat)
      (db : DB) (r : Req),
      findUser db r.userId = none →
      (strTrim r.message == "" && r.files.isEmpty) = false →
      validFiles r.files = true →
      sendMessage false sysPrompt extract llm wsFresh chatFresh userMsgId
        aiMsgId now db r = ⟨404, db, none, []⟩) := by
  constructor
  · intro db uid role
    unfold ensureUser
    match hfu : findUser db uid with
    | some u =>
      exact ⟨db, rfl, fun hno => by simp [hfu] at hno⟩
    | none =>
      match hfe : findUserByEmail db (uid ++ "@example.com") with
      | none =>
        refine ⟨insertUser db ⟨uid, "Test", "User", uid ++ "@example.com",
          if role == "" then "user" else role⟩,
          rfl, fun _ => ⟨⟨uid, "Test", "User",
            uid ++ "@example.com", if role == "" then "user" else role⟩,
            ?_, rfl⟩⟩
        simp [insertUser]
      | some u0 =>
        have hfe' : db.users.find?
            (fun u => u.email == uid ++ "@example.com") = some u0 := hfe
        have hmem := List.mem_of_find?_eq_some hfe'
        have hp := List.find?_some hfe'
        refine ⟨repointUser db (uid ++ "@example.com") uid,
          rfl, fun _ => ?_⟩
        simp only [repointUser]
        exact ⟨_, List.mem_map_of_mem _ hmem, by simp [hp]⟩
  · intro sysPrompt extract llm wsFresh chatFresh userMsgId aiMsgId now db r
      hfu hval1 hval2
    have hu : ensureUser false db r.userId r.userRole = .error 404 := by
      simp [ensureUser, hfu]
    simp [sendMessage, hval1, hval2, hu]

/-- Witness for the amended C4: in dev-bypass mode the user-existence step
succeeds on an empty database; outside it the same request is rejected 404. -/
theorem chat_message_missing_user_fallback_dev_only_witness :
    (∃ db1, ensureUser true ⟨[], [], [], [], []⟩ "u1" "user" = .ok db1 ∧
      (findUser ⟨[], [], [], [], []⟩ "u1" = none →
        ∃ u ∈ db1.users, u.id = "u1")) ∧
    sendMessage false "sys" (fun _ => "") (fun _ _ => .ok "x") "w9" "c9"
        "m1" "m2" 5 ⟨[], [], [], [], []⟩ ⟨"u1", "user", "hi", "", "", []⟩ =
      ⟨404, ⟨[], [], [], [], []⟩, none, []⟩ :=
  ⟨chat_message_missing_user_fallback_dev_only.1 ⟨[], [], [], [], []⟩ "u1"
    "user",
   chat_message_missing_user_fallback_dev_only.2 "sys" (fun _ => "")
    (fun _ _ => .ok "x") "w9" "c9" "m1" "m2" 5 ⟨[], [], [], [], []⟩
    ⟨"u1", "user", "hi", "", "", []⟩ rfl rfl rfl⟩

/-! ### C7: does the actions endpoint restrict the target message's role? -/

/-- Counterexample to C7 as stated: the backend actions endpoint never reads
the target message's role. A request targeting a `user`-role message in the
requester's own chat creates a `MessageActions` row and reports it active. -/
theorem message_action_user_role_row_created_counterexample :
    (findChat ⟨[⟨"u1", "A", "B", "u1@e", "user"⟩],
        [⟨"w1", "W", "", "#3B82F6", "u1"⟩],
        [⟨"c1", "T", "", "u1", "w1", 2, none, 0, 0⟩],
        [⟨"m1", "c1", "u1", "hi", "user", 0⟩], []⟩ "c1").isSome = true ∧
    ((⟨[⟨"u1", "A", "B", "u1@e", "user"⟩],
        [⟨"w1", "W", "", "#3B82F6", "u1"⟩],
        [⟨"c1", "T", "", "u1", "w1", 2, none, 0, 0⟩],
        [⟨"m1", "c1", "u1", "hi", "user", 0⟩], []⟩ : DB).messages.find?
      (fun m => m.id == "m1")).map (fun m => m.role) = some "user" ∧
    messageAction "a1" ⟨[⟨"u1", "A", "B", "u1@e", "user"⟩],
        [⟨"w1", "W", "", "#3B82F6", "u1"⟩],
        [⟨"c1", "T", "", "u1", "w1", 2, none, 0, 0⟩],
        [⟨"m1", "c1", "u1", "hi", "user", 0⟩], []⟩ "u1" "c1" "m1" "like" =
      ⟨200, ⟨[⟨"u1", "A", "B", "u1@e", "user"⟩],
        [⟨"w1", "W", "", "#3B82F6", "u1"⟩],
        [⟨"c1", "T", "", "u1", "w1", 2, none, 0, 0⟩],
        [⟨"m1", "c1", "u1", "hi", "user", 0⟩],
        [⟨"a1", "m1", "u1", "like"⟩]⟩, some true⟩ := by
  exact ⟨rfl, rfl, rfl⟩

/-- Re-pointing the target message's role, leaving everything else alone. -/
def mapRole (db : DB) (mid ro : String) : DB :=
  { db with messages := (db.messages.map
      (fun m => if m.id == mid then { m with role := ro } else m)) }

/-- The access check never reads message roles. -/
theorem msgAccessible_mapRole (db : DB) (mid ro uid cid mi : String) :
    msgAccessible (mapRole db mid ro) uid cid mi =
      msgAccessible db uid cid mi := by
  simp only [msgAccessible, mapRole, List.any_map]
  congr 1
  funext m
  by_cases h : (m.id == mid) = true <;> simp [Function.comp, h]

/-- C7 amended: the assistant-only restriction is enforced only client-side —
the frontend `handleMessageAction` guard returns without calling the endpoint
for a message sent by the user — while the backend endpoint's behavior
(status, `active` flag, and resulting `MessageActions` rows) is entirely
independent of the target message's role, so a direct request for a
`user`-role message creates the row. -/
theorem message_action_role_checked_only_in_frontend :
    (∀ (msgs : List FrontMsg) (mid : String) (m : FrontMsg),
      msgs.find? (fun x => x.id == mid) = some m → m.isUser = true →
      frontendAllowsAction mid msgs = false) ∧
    (∀ (aid : String) (db : DB) (uid cid mid ty ro : String),
      (messageAction aid (mapRole db mid ro) uid cid mid ty).status =
        (messageAction aid db uid cid mid ty).status ∧
      (messageAction aid (mapRole db mid ro) uid cid mid ty).active =
        (messageAction aid db uid cid mid ty).active ∧
      (messageAction aid (mapRole db mid ro) uid cid mid ty).db.actions =
        (messageAction aid db uid cid mid ty).db.actions) := by
  constructor
  · intro msgs mid m hfind huser
    unfold frontendAllowsAction
    split
    · rfl
    · rw [hfind]
      simp [huser]
  · intro aid db uid cid mid ty ro
    have hacts : (mapRole db mid ro).actions = db.actions := rfl
    unfold messageAction
    rw [msgAccessible_mapRole]
    simp only [hasAction, removeAction, addAction, hacts]
    repeat' split
    all_goals simp_all

/-- Witness for the amended C7: the frontend guard refuses a user message,
while the backend's resulting action rows do not depend on the role. -/
theorem message_action_role_checked_only_in_frontend_witness :
    frontendAllowsAction "m1" [⟨"m1", true⟩] = false ∧
    (messageAction "a1" (mapRole ⟨[⟨"u1", "A", "B", "u1@e", "user"⟩],
        [⟨"w1", "W", "", "#3B82F6", "u1"⟩],
        [⟨"c1", "T", "", "u1", "w1", 2, none, 0, 0⟩],
        [⟨"m1", "c1", "u1", "hi", "user", 0⟩], []⟩ "m1" "assistant")
      "u1" "c1" "m1" "like").db.actions =
      (messageAction "a1" ⟨[⟨"u1", "A", "B", "u1@e", "user"⟩],
        [⟨"w1", "W", "", "#3B82F6", "u1"⟩],
        [⟨"c1", "T", "", "u1", "w1", 2, none, 0, 0⟩],
        [⟨"m1", "c1", "u1", "hi", "user", 0⟩], []⟩
        "u1" "c1" "m1" "like").db.actions :=
  ⟨message_action_role_checked_only_in_frontend.1 [⟨"m1", true⟩] "m1"
    ⟨"m1", true⟩ rfl rfl,
   (message_action_role_checked_only_in_frontend.2 "a1"
    ⟨[⟨"u1", "A", "B", "u1@e", "user"⟩],
     [⟨"w1", "W", "", "#3B82F6", "u1"⟩],
     [⟨"c1", "T", "", "u1", "w1", 2, none, 0, 0⟩],
     [⟨"m1", "c1", "u1", "hi", "user", 0⟩], []⟩
    "u1" "c1" "m1" "like" "assistant").2.2⟩

/-! ### C10: the message-action toggle -/

/-- A just-added `(messageId, userId, actionType)` row is found. -/
theorem hasAction_addAction_self (db : DB) (aid mid uid ty : String) :
    hasAction (addAction db aid mid uid ty) mid uid ty = true := by
  simp [hasAction, addAction, actKey]

/-- After the delete, no `(messageId, userId, actionType)` row remains. -/
theorem hasAction_removeAction_self (db : DB) (mid uid ty : String) :
    hasAction (removeAction db mid uid ty) mid uid ty = false := by
  simp only [hasAction, removeAction]
  rw [Bool.eq_false_iff]
  intro hcon
  simp only [List.any_eq_true, List.mem_filter] at hcon
  obtain ⟨a, ⟨_, hkeep⟩, hkey⟩ := hcon
  rw [hkey] at hkeep
  simp at hkeep

/-- The key predicate rejects a row built from a different triple. -/
theorem actKey_mk_other (aid mid uid ty mi ui t2 : String)
    (hne : ¬(mi = mid ∧ ui = uid ∧ t2 = ty)) :
    actKey mi ui t2 ⟨aid, mid, uid, ty⟩ = false := by
  rw [Bool.eq_false_iff]
  intro hcon
  simp only [actKey, Bool.and_eq_true, beq_iff_eq] at hcon
  exact hne ⟨hcon.1.1.symm, hcon.1.2.symm, hcon.2.symm⟩

/-- Adding a row does not change the presence of any other triple. -/
theorem hasAction_addAction_other (db : DB) (aid mid uid ty mi ui t2 : String)
    (hne : ¬(mi = mid ∧ ui = uid ∧ t2 = ty)) :
    hasAction (addAction db aid mid uid ty) mi ui t2 =
      hasAction db mi ui t2 := by
  simp [hasAction, addAction, actKey_mk_other aid mid uid ty mi ui t2 hne]

/-- Deleting a triple does not change the presence of any other triple. -/
theorem hasAction_removeAction_other (db : DB) (mid uid ty mi ui t2 : String)
    (hne : ¬(mi = mid ∧ ui = uid ∧ t2 = ty)) :
    hasAction (removeAction db mid uid ty) mi ui t2 =
      hasAction db mi ui t2 := by
  simp only [hasAction, removeAction]
  rw [Bool.eq_iff_iff]
  simp only [List.any_eq_true, List.mem_filter]
  constructor
  · rintro ⟨a, ⟨ha, _⟩, hk⟩
    exact ⟨a, ha, hk⟩
  · rintro ⟨a, ha, hk⟩
    refine ⟨a, ⟨ha, ?_⟩, hk⟩
    simp only [Bool.not_eq_eq_eq_not, Bool.not_true]
    rw [Bool.eq_false_iff]
    intro hcon
    simp only [actKey, Bool.and_eq_true, beq_iff_eq] at hk hcon
    exact hne ⟨hk.1.1.symm.trans hcon.1.1, hk.1.2.symm.trans hcon.1.2,
      hk.2.symm.trans hcon.2⟩

/-- C10: the message-action endpoint is a toggle that is an involution on
the presence state: for a fixed user, accessible message, and valid
actionType, a call flips the presence of the `(messageId, userId,
actionType)` row and reports `active = true` exactly when the row was absent
before; two consecutive calls leave every triple's presence as it started,
and the pair of responses is `active: true` then `false` (or `false` then
`true`). -/
theorem message_action_toggle_involution (aid1 aid2 : String) (db : DB)
    (uid cid mid ty : String)
    (hty : (["like", "dislike", "bookmark", "star"].contains ty) = true)
    (hacc : msgAccessible db uid cid mid = true) :
    (messageAction aid1 db uid cid mid ty).status = 200 ∧
    (messageAction aid2 (messageAction aid1 db uid cid mid ty).db uid cid
      mid ty).status = 200 ∧
    (messageAction aid1 db uid cid mid ty).active =
      some (!(hasAction db mid uid ty)) ∧
    hasAction (messageAction aid1 db uid cid mid ty).db mid uid ty =
      !(hasAction db mid uid ty) ∧
    (messageAction aid2 (messageAction aid1 db uid cid mid ty).db uid cid
      mid ty).active = some (hasAction db mid uid ty) ∧
    hasAction (messageAction aid2 (messageAction aid1 db uid cid mid
      ty).db uid cid mid ty).db mid uid ty = hasAction db mid uid ty ∧
    (∀ mi ui t2 : String, ¬(mi = mid ∧ ui = uid ∧ t2 = ty) →
      hasAction (messageAction aid2 (messageAction aid1 db uid cid mid
        ty).db uid cid mid ty).db mi ui t2 = hasAction db mi ui t2) := by
  by_cases h : hasAction db mid uid ty = true
  · have e1 : messageAction aid1 db uid cid mid ty =
        ⟨200, removeAction db mid uid ty, some false⟩ := by
      unfold messageAction
      rw [hty, hacc, h]
      rfl
    have hacc2 : msgAccessible (removeAction db mid uid ty) uid cid mid =
        true := hacc
    have e2 : messageAction aid2 (removeAction db mid uid ty) uid cid mid
        ty = ⟨200, addAction (removeAction db mid uid ty) aid2 mid uid ty,
          some true⟩ := by
      unfold messageAction
      rw [hty, hacc2, hasAction_removeAction_self]
      rfl
    have e2' : messageAction aid2 (messageAction aid1 db uid cid mid ty).db
        uid cid mid ty = ⟨200, addAction (removeAction db mid uid ty) aid2
          mid uid ty, some true⟩ := by
      rw [e1]
      exact e2
    rw [e2', e1]
    refine ⟨rfl, rfl, by rw [h]; try rfl, ?_, by rw [h]; try rfl, ?_, ?_⟩
    · exact (hasAction_removeAction_self db mid uid ty).trans
        (by rw [h]; rfl)
    · exact (hasAction_addAction_self _ aid2 mid uid ty).trans h.symm
    · intro mi ui t2 hne
      exact (hasAction_addAction_other _ aid2 mid uid ty mi ui t2 hne).trans
        (hasAction_removeAction_other db mid uid ty mi ui t2 hne)
  · rw [Bool.not_eq_true] at h
    have e1 : messageAction aid1 db uid cid mid ty =
        ⟨200, addAction db aid1 mid uid ty, some true⟩ := by
      unfold messageAction
      rw [hty, hacc, h]
      rfl
    have hacc2 : msgAccessible (addAction db aid1 mid uid ty) uid cid mid =
        true := hacc
    have e2 : messageAction aid2 (addAction db aid1 mid uid ty) uid cid mid
        ty = ⟨200, removeAction (addAction db aid1 mid uid ty) mid uid ty,
          some false⟩ := by
      unfold messageAction
      rw [hty, hacc2, hasAction_addAction_self]
      rfl
    have e2' : messageAction aid2 (messageAction aid1 db uid cid mid ty).db
        uid cid mid ty = ⟨200, removeAction (addAction db aid1 mid uid ty)
          mid uid ty, some false⟩ := by
      rw [e1]
      exact e2
    rw [e2', e1]
    refine ⟨rfl, rfl, by rw [h]; try rfl, ?_, by rw [h]; try rfl, ?_, ?_⟩
    · exact (hasAction_addAction_self db aid1 mid uid ty).trans
        (by rw [h]; rfl)
    · exact (hasAction_removeAction_self _ mid uid ty).trans h.symm
    · intro mi ui t2 hne
      exact (hasAction_removeAction_other _ mid uid ty mi ui t2 hne).trans
        (hasAction_addAction_other db aid1 mid uid ty mi ui t2 hne)

/-- Witness for C10: toggling `like` twice on a concrete assistant message. -/
theorem message_action_toggle_involution_witness :
    (messageAction "a1" ⟨[⟨"u1", "A", "B", "u1@e", "user"⟩],
        [⟨"w1", "W", "", "#3B82F6", "u1"⟩],
        [⟨"c1", "T", "", "u1", "w1", 2, none, 0, 0⟩],
        [⟨"m1", "c1", "u1", "resp", "assistant", 0⟩], []⟩
      "u1" "c1" "m1" "like").status = 200 ∧
    (messageAction "a2" (messageAction "a1"
        ⟨[⟨"u1", "A", "B", "u1@e", "user"⟩],
         [⟨"w1", "W", "", "#3B82F6", "u1"⟩],
         [⟨"c1", "T", "", "u1", "w1", 2, none, 0, 0⟩],
         [⟨"m1", "c1", "u1", "resp", "assistant", 0⟩], []⟩
        "u1" "c1" "m1" "like").db "u1" "c1" "m1" "like").status = 200 ∧
    (messageAction "a1" ⟨[⟨"u1", "A", "B", "u1@e", "user"⟩],
        [⟨"w1", "W", "", "#3B82F6", "u1"⟩],
        [⟨"c1", "T", "", "u1", "w1", 2, none, 0, 0⟩],
        [⟨"m1", "c1", "u1", "resp", "assistant", 0⟩], []⟩
      "u1" "c1" "m1" "like").active =
      some (!(hasAction ⟨[⟨"u1", "A", "B", "u1@e", "user"⟩],
        [⟨"w1", "W", "", "#3B82F6", "u1"⟩],
        [⟨"c1", "T", "", "u1", "w1", 2, none, 0, 0⟩],
        [⟨"m1", "c1", "u1", "resp", "assistant", 0⟩], []⟩ "m1" "u1"
        "like")) ∧
    hasAction (messageAction "a1" ⟨[⟨"u1", "A", "B", "u1@e", "user"⟩],
        [⟨"w1", "W", "", "#3B82F6", "u1"⟩],
        [⟨"c1", "T", "", "u1", "w1", 2, none, 0, 0⟩],
        [⟨"m1", "c1", "u1", "resp", "assistant", 0⟩], []⟩
      "u1" "c1" "m1" "like").db "m1" "u1" "like" =
      !(hasAction ⟨[⟨"u1", "A", "B", "u1@e", "user"⟩],
        [⟨"w1", "W", "", "#3B82F6", "u1"⟩],
        [⟨"c1", "T", "", "u1", "w1", 2, none, 0, 0⟩],
        [⟨"m1", "c1", "u1", "resp", "assistant", 0⟩], []⟩ "m1" "u1"
        "like") ∧
    (messageAction "a2" (messageAction "a1"
        ⟨[⟨"u1", "A", "B", "u1@e", "user"⟩],
         [⟨"w1", "W", "", "#3B82F6", "u1"⟩],
         [⟨"c1", "T", "", "u1", "w1", 2, none, 0, 0⟩],
         [⟨"m1", "c1", "u1", "resp", "assistant", 0⟩], []⟩
        "u1" "c1" "m1" "like").db "u1" "c1" "m1" "like").active =
      some (hasAction ⟨[⟨"u1", "A", "B", "u1@e", "user"⟩],
        [⟨"w1", "W", "", "#3B82F6", "u1"⟩],
        [⟨"c1", "T", "", "u1", "w1", 2, none, 0, 0⟩],
        [⟨"m1", "c1", "u1", "resp", "assistant", 0⟩], []⟩ "m1" "u1"
        "like") ∧
    hasAction (messageAction "a2" (messageAction "a1"
        ⟨[⟨"u1", "A", "B", "u1@e", "user"⟩],
         [⟨"w1", "W", "", "#3B82F6", "u1"⟩],
         [⟨"c1", "T", "", "u1", "w1", 2, none, 0, 0⟩],
         [⟨"m1", "c1", "u1", "resp", "assistant", 0⟩], []⟩
        "u1" "c1" "m1" "like").db "u1" "c1" "m1" "like").db "m1" "u1"
        "like" =
      hasAction ⟨[⟨"u1", "A", "B", "u1@e", "user"⟩],
        [⟨"w1", "W", "", "#3B82F6", "u1"⟩],
        [⟨"c1", "T", "", "u1", "w1", 2, none, 0, 0⟩],
        [⟨"m1", "c1", "u1", "resp", "assistant", 0⟩], []⟩ "m1" "u1"
        "like" ∧
    (∀ mi ui t2 : String, ¬(mi = "m1" ∧ ui = "u1" ∧ t2 = "like") →
      hasAction (messageAction "a2" (messageAction "a1"
          ⟨[⟨"u1", "A", "B", "u1@e", "user"⟩],
           [⟨"w1", "W", "", "#3B82F6", "u1"⟩],
           [⟨"c1", "T", "", "u1", "w1", 2, none, 0, 0⟩],
           [⟨"m1", "c1", "u1", "resp", "assistant", 0⟩], []⟩
          "u1" "c1" "m1" "like").db "u1" "c1" "m1" "like").db mi ui t2 =
        hasAction ⟨[⟨"u1", "A", "B", "u1@e", "user"⟩],
          [⟨"w1", "W", "", "#3B82F6", "u1"⟩],
          [⟨"c1", "T", "", "u1", "w1", 2, none, 0, 0⟩],
          [⟨"m1", "c1", "u1", "resp", "assistant", 0⟩], []⟩ mi ui t2) :=
  message_action_toggle_involution "a1" "a2"
    ⟨[⟨"u1", "A", "B", "u1@e", "user"⟩],
     [⟨"w1", "W", "", "#3B82F6", "u1"⟩],
     [⟨"c1", "T", "", "u1", "w1", 2, none, 0, 0⟩],
     [⟨"m1", "c1", "u1", "resp", "assistant", 0⟩], []⟩
    "u1" "c1" "m1" "like" rfl rfl

/-! ### C8: mock fallback versus fail-fast during service initialization -/

/-- C8: the Blob Storage and App Configuration initializers never throw and
fall back to the in-memory mock client when their configuration is absent,
whereas the SQL and OpenAI initializers throw (no mock) when any required
environment variable is missing. -/
theorem service_init_mock_fallback_vs_fail_fast :
    (∀ e : Env, ∃ k, initializeBlobStorage e = .ok k) ∧
    (∀ e : Env, e.storageAccountName = "" →
      initializeBlobStorage e = .ok .mock) ∧
    (∀ e : Env, ∃ k, initializeAppConfiguration e = .ok k) ∧
    (∀ e : Env, e.appConfigConnectionString = "" →
      initializeAppConfiguration e = .ok .mock) ∧
    (∀ e : Env, e.sqlServer = "" ∨ e.sqlDatabase = "" ∨
        e.sqlUsername = "" ∨ e.sqlPassword = "" →
      initializeSQLDatabase e = .error
        "Missing required SQL database configuration in environment variables") ∧
    (∀ e : Env, e.openaiEndpoint = "" ∨ e.openaiApiKey = "" →
      initializeOpenAI e = .error
        "Azure OpenAI configuration missing in environment variables") := by
  refine ⟨?_, ?_, ?_, ?_, ?_, ?_⟩
  · intro e
    unfold initializeBlobStorage
    split
    · exact ⟨_, rfl⟩
    · split
      · exact ⟨_, rfl⟩
      · split <;> exact ⟨_, rfl⟩
  · intro e h
    simp [initializeBlobStorage, h]
  · intro e
    unfold initializeAppConfiguration
    split <;> exact ⟨_, rfl⟩
  · intro e h
    simp [initializeAppConfiguration, h]
  · rintro e (h | h | h | h) <;> simp [initializeSQLDatabase, h]
  · rintro e (h | h) <;> simp [initializeOpenAI, h]

/-- Witness for C8 at a fully empty environment: Blob and App Configuration
come up as mocks; SQL and OpenAI fail. -/
theorem service_init_mock_fallback_vs_fail_fast_witness :
    initializeBlobStorage ⟨"", "", "", "", "", "", "", "", false, "", ""⟩ =
      .ok .mock ∧
    initializeAppConfiguration
      ⟨"", "", "", "", "", "", "", "", false, "", ""⟩ = .ok .mock ∧
    initializeSQLDatabase ⟨"", "", "", "", "", "", "", "", false, "", ""⟩ =
      .error
        "Missing required SQL database configuration in environment variables" ∧
    initializeOpenAI ⟨"", "", "", "", "", "", "", "", false, "", ""⟩ =
      .error
        "Azure OpenAI configuration missing in environment variables" :=
  ⟨service_init_mock_fallback_vs_fail_fast.2.1 _ rfl,
   service_init_mock_fallback_vs_fail_fast.2.2.2.1 _ rfl,
   service_init_mock_fallback_vs_fail_fast.2.2.2.2.1 _ (Or.inl rfl),
   service_init_mock_fallback_vs_fail_fast.2.2.2.2.2 _ (Or.inl rfl)⟩

/-! ### C9: the frontend error-text chooser -/

/-- C9: the user-facing error string is chosen by a flat ordered list of
substring matches on the error message — timeout/timed out first, then
overloaded/rate limit, then authentication/unauthorized, then
model/configuration, then workspace — the first matching branch winning, and
the raw error message is used when none matches. -/
theorem frontend_error_text_first_match_wins :
    (∀ m : String, (m == "") = false →
      (strIncludes m "timeout" || strIncludes m "timed out") = true →
      chooseErrorText m =
        "The AI service is taking too long to respond. Please try again later.") ∧
    (∀ m : String, (m == "") = false →
      (strIncludes m "timeout" || strIncludes m "timed out") = false →
      (strIncludes m "overloaded" || strIncludes m "rate limit") = true →
      chooseErrorText m =
        "The AI service is currently overloaded. Please wait a moment and try again.") ∧
    (∀ m : String, (m == "") = false →
      (strIncludes m "timeout" || strIncludes m "timed out") = false →
      (strIncludes m "overloaded" || strIncludes m "rate limit") = false →
      (strIncludes m "authentication" || strIncludes m "unauthorized") =
        true →
      chooseErrorText m =
        "Authentication failed. Please refresh the page and try again.") ∧
    (∀ m : String, (m == "") = false →
      (strIncludes m "timeout" || strIncludes m "timed out") = false →
      (strIncludes m "overloaded" || strIncludes m "rate limit") = false →
      (strIncludes m "authentication" || strIncludes m "unauthorized") =
        false →
      (strIncludes m "model" || strIncludes m "configuration") = true →
      chooseErrorText m =
        "There is an issue with the AI model configuration. Please contact support.") ∧
    (∀ m : String, (m == "") = false →
      (strIncludes m "timeout" || strIncludes m "timed out") = false →
      (strIncludes m "overloaded" || strIncludes m "rate limit") = false →
      (strIncludes m "authentication" || strIncludes m "unauthorized") =
        false →
      (strIncludes m "model" || strIncludes m "configuration") = false →
      strIncludes m "workspace" = true →
      chooseErrorText m =
        "Workspace configuration error. Please refresh the page and try again.") ∧
    (∀ m : String, (m == "") = false →
      (strIncludes m "timeout" || strIncludes m "timed out") = false →
      (strIncludes m "overloaded" || strIncludes m "rate limit") = false →
      (strIncludes m "authentication" || strIncludes m "unauthorized") =
        false →
      (strIncludes m "model" || strIncludes m "configuration") = false →
      strIncludes m "workspace" = false →
      chooseErrorText m = m) := by
  refine ⟨?_, ?_, ?_, ?_, ?_, ?_⟩ <;>
    intro m h0 <;> intros <;> simp_all [chooseErrorText]

/-- Witness for C9: each priority class on a concrete message. -/
theorem frontend_error_text_first_match_wins_witness :
    chooseErrorText "request timeout" =
      "The AI service is taking too long to respond. Please try again later." ∧
    chooseErrorText "rate limit hit" =
      "The AI service is currently overloaded. Please wait a moment and try again." ∧
    chooseErrorText "bad unauthorized call" =
      "Authentication failed. Please refresh the page and try again." ∧
    chooseErrorText "model gone" =
      "There is an issue with the AI model configuration. Please contact support." ∧
    chooseErrorText "workspace broken" =
      "Workspace configuration error. Please refresh the page and try again." ∧
    chooseErrorText "database exploded" = "database exploded" :=
  ⟨frontend_error_text_first_match_wins.1 "request timeout" rfl rfl,
   frontend_error_text_first_match_wins.2.1 "rate limit hit" rfl rfl rfl,
   frontend_error_text_first_match_wins.2.2.1 "bad unauthorized call" rfl
     rfl rfl rfl,
   frontend_error_text_first_match_wins.2.2.2.1 "model gone" rfl rfl rfl
     rfl rfl,
   frontend_error_text_first_match_wins.2.2.2.2.1 "workspace broken" rfl
     rfl rfl rfl rfl rfl,
   frontend_error_text_first_match_wins.2.2.2.2.2 "database exploded" rfl
     rfl rfl rfl rfl rfl⟩
